import Mathlib

/-!
Verification of the Procrustes alignment core of `src/procrustes_utils.py`.

The module's three operations are embedded shallowly:

* `procrustes_alignment`  — pairwise Kabsch-style similarity fit;
* `compute_alignment_error` — RMSE of a transform;
* `procrustes_superimposition` — iterative Generalized Procrustes Analysis.

Numbers: the source computes with numpy doubles; we model them as real
numbers (exact arithmetic).  A point set (an N×3 numpy array) is a list of
rows, each row a list of reals, so that the source's shape checks (row
count, row length) are expressible.  `np.linalg.svd` is an external library
routine, not code of this repository; it is modelled as an explicit
function parameter `svd : Mat3 → Mat3 × Mat3` returning the pair `(U, Vᵗ)`
(the singular values are never used by the source), so every theorem about
the SVD-derived rotation quantifies over the decomposition actually
returned, constrained by orthogonality hypotheses where a claim needs them.
-/

namespace Procrustes

noncomputable section

/-- One landmark: a row of the N×d array, as a list of coordinates. -/
abbrev Pt : Type := List ℝ

/-- A 2-D numpy array of landmarks, as its list of rows. -/
abbrev PtSet : Type := List Pt

abbrev Mat3 : Type := Matrix (Fin 3) (Fin 3) ℝ

abbrev Mat4 : Type := Matrix (Fin 4) (Fin 4) ℝ

/-- numpy `.shape` of a 2-D array: (number of rows, row length). -/
def shape (A : PtSet) : ℕ × ℕ := (A.length, A.headI.length)

/-- Elementwise sum of two rows (numpy `+` on equal-shape arrays). -/
def vadd (u v : Pt) : Pt := List.zipWith (· + ·) u v

/-- Elementwise difference of two rows. -/
def vsub (u v : Pt) : Pt := List.zipWith (· - ·) u v

/-- A row scaled by a scalar. -/
def vsmul (c : ℝ) (u : Pt) : Pt := u.map (fun x => c * x)

/-- Sum of squared entries of one row. -/
def vsumsq (u : Pt) : ℝ := (u.map (fun x => x ^ 2)).sum

/-- Column-wise sum of the rows of an array of row length `d`
(numpy `np.sum(A, axis=0)`). -/
def colSum (d : ℕ) (A : PtSet) : Pt := A.foldr vadd (List.replicate d 0)

/-- numpy `np.mean(A, axis=0)`: the centroid row of a 2-D array. -/
def centroid (A : PtSet) : Pt :=
  vsmul (1 / (A.length : ℝ)) (colSum A.headI.length A)

/-- The array with its centroid subtracted from every row
(`A - np.mean(A, axis=0)`). -/
def centered (A : PtSet) : PtSet := A.map (fun r => vsub r (centroid A))

/-- numpy `np.sum(A ** 2)`: the squared Frobenius norm of the array. -/
def frobSq (A : PtSet) : ℝ := (A.map vsumsq).sum

/-- Every row of the array scaled by `c` (numpy `A * c`). -/
def smulSet (c : ℝ) (A : PtSet) : PtSet := A.map (vsmul c)

/-- A length-3 row read as a vector (out-of-range entries default to 0;
never reached on shape-checked inputs). -/
def toVec3 (u : Pt) : Fin 3 → ℝ := fun i => u.getD (i : ℕ) 0

/-- The 3×3 cross-covariance `H = Tᵀ @ R` of two N×3 arrays:
`H i j = Σ_p T[p][i] * R[p][j]`. -/
def crossCov (T R : PtSet) : Mat3 :=
  Matrix.of fun i j => (List.zipWith (fun t r => toVec3 t i * toVec3 r j) T R).sum

/-- The matrix with its last row negated (`Vt_corrected[-1, :] *= -1`). -/
def negLastRow (M : Mat3) : Mat3 := M.updateRow 2 (-(M 2))

/-- Steps of the source that build the 4×4 homogeneous matrix from
`np.eye(4)`: `transform[:3,:3] = R * scale`, `transform[:3,3] = t`. -/
def buildTransform (R : Mat3) (s : ℝ) (t : Fin 3 → ℝ) : Mat4 :=
  Matrix.of fun i j =>
    if hi : (i : ℕ) < 3 then
      if hj : (j : ℕ) < 3 then R ⟨i, hi⟩ ⟨j, hj⟩ * s else t ⟨i, hi⟩
    else if i = j then 1 else 0

/-- The tuple `(success, transformation_matrix, scale_factor)` returned by
`procrustes_alignment`. -/
structure AlignResult where
  success : Bool
  transform : Mat4
  scale : ℝ

/-- Steps 4–8 of `procrustes_alignment` (after validation and scale
determination): scale the centered target, build `H`, decompose, build the
rotation with the reflection fix, assemble translation and the 4×4 matrix. -/
def alignRest (svd : Mat3 → Mat3 × Mat3) (allow_reflection : Bool)
    (ref_centroid tgt_centroid : Pt) (ref_centered tgt_centered : PtSet)
    (scale : ℝ) : AlignResult :=
  let tgt_centered_scaled := smulSet scale tgt_centered
  let H := crossCov tgt_centered_scaled ref_centered
  let U := (svd H).1
  let Vt := (svd H).2
  let R0 := Vt.transpose * U.transpose
  let R := if allow_reflection = false ∧ R0.det < 0 then
      (negLastRow Vt).transpose * U.transpose
    else R0
  let translation : Fin 3 → ℝ := toVec3 ref_centroid - R.mulVec (scale • toVec3 tgt_centroid)
  ⟨true, buildTransform R scale translation, scale⟩

/-- `procrustes_alignment(reference_points, target_points, allow_scale,
allow_reflection)` of the source, with numpy's SVD supplied as `svd`.
Failure returns `(False, np.eye(4), 1.0)`. -/
def procrustes_alignment (svd : Mat3 → Mat3 × Mat3)
    (reference_points target_points : PtSet)
    (allow_scale allow_reflection : Bool) : AlignResult :=
  if shape reference_points ≠ shape target_points then ⟨false, 1, 1⟩
  else if reference_points.length < 3 then ⟨false, 1, 1⟩
  else if (shape reference_points).2 ≠ 3 then ⟨false, 1, 1⟩
  else
    let ref_centroid := centroid reference_points
    let tgt_centroid := centroid target_points
    let ref_centered := centered reference_points
    let tgt_centered := centered target_points
    if allow_scale then
      let ref_scale := Real.sqrt (frobSq ref_centered)
      let tgt_scale := Real.sqrt (frobSq tgt_centered)
      if tgt_scale > 1e-10 then
        alignRest svd allow_reflection ref_centroid tgt_centroid
          ref_centered tgt_centered (ref_scale / tgt_scale)
      else ⟨false, 1, 1⟩
    else
      alignRest svd allow_reflection ref_centroid tgt_centroid
        ref_centered tgt_centered 1

/-- One target row sent through a 4×4 transform in homogeneous coordinates:
append 1, multiply, keep the first three components. -/
def applyTransform (M : Mat4) (p : Pt) : Pt :=
  List.ofFn (fun i : Fin 3 =>
    ∑ j : Fin 4, M i.castSucc j * (if (j : ℕ) < 3 then p.getD (j : ℕ) 0 else 1))

/-- `compute_alignment_error(reference_points, target_points,
transform_matrix)` of the source: RMSE between the transformed target and
the reference. -/
def compute_alignment_error (reference_points target_points : PtSet)
    (transform_matrix : Mat4) : ℝ :=
  let transformed := target_points.map (applyTransform transform_matrix)
  let differences := List.zipWith vsub reference_points transformed
  Real.sqrt ((differences.map vsumsq).sum / (differences.length : ℝ))

/-- The tuple `(success, aligned_point_sets, mean_shape)` returned by
`procrustes_superimposition`.  On failure the source returns
`(False, [], np.array([]))`. -/
structure GPAResult where
  success : Bool
  aligned : List PtSet
  mean_shape : PtSet

/-- Elementwise sum of a list of equal-shape arrays. -/
def setSum (A : List PtSet) : PtSet :=
  A.foldr (fun s acc => List.zipWith vadd s acc)
    (List.replicate (shape A.headI).1 (List.replicate (shape A.headI).2 0))

/-- numpy `np.mean(aligned, axis=0)`: the elementwise average of a list of
equal-shape arrays. -/
def meanSet (A : List PtSet) : PtSet := smulSet (1 / (A.length : ℝ)) (setSum A)

/-- numpy `np.max(np.abs(A - B))` for equal-shape arrays, totalized to 0 on
a zero-size array.  Caution: `np.max` itself raises ValueError on zero-size
input; that partial behaviour is modelled separately by `npMax` over
`absDiffEntries`, and the totalization here is sound only away from the
zero-size arrays (see `gpa_zero_size_raises`). -/
def maxAbsDiff (A B : PtSet) : ℝ :=
  (List.zipWith (fun r s => (List.zipWith (fun a b => |a - b|) r s).foldr max 0) A B).foldr
    max 0

/-- One GPA pass: each original input set `point_sets[i]` is aligned to
`mean` with `allow_reflection=False`; on success `aligned[i]` becomes the
transform applied to `point_sets[i]`, on failure it is left unchanged. -/
def gpaPass (svd : Mat3 → Mat3 × Mat3) (allow_scale : Bool)
    (point_sets aligned : List PtSet) (mean : PtSet) : List PtSet :=
  List.zipWith
    (fun orig al =>
      let res := procrustes_alignment svd mean orig allow_scale false
      if res.success then orig.map (applyTransform res.transform) else al)
    point_sets aligned

/-- The GPA iteration loop: up to `fuel` passes, stopping when the mean
moves by less than `tolerance` in maximum absolute elementwise difference. -/
def gpaLoop (svd : Mat3 → Mat3 × Mat3) (allow_scale : Bool) (tolerance : ℝ)
    (point_sets : List PtSet) : ℕ → List PtSet → PtSet → List PtSet × PtSet
  | 0, aligned, mean => (aligned, mean)
  | fuel + 1, aligned, mean =>
    let aligned2 := gpaPass svd allow_scale point_sets aligned mean
    let mean2 := meanSet aligned2
    if maxAbsDiff mean2 mean < tolerance then (aligned2, mean2)
    else gpaLoop svd allow_scale tolerance point_sets fuel aligned2 mean2

/-- `procrustes_superimposition(point_sets, max_iterations, tolerance,
allow_scale)` of the source.  `max_iterations` is a Python int, so an
integer; `range(max_iterations)` runs `max 0 max_iterations` times. -/
def procrustes_superimposition (svd : Mat3 → Mat3 × Mat3)
    (point_sets : List PtSet) (max_iterations : ℤ) (tolerance : ℝ)
    (allow_scale : Bool) : GPAResult :=
  if point_sets.length < 2 then ⟨false, [], []⟩
  else if ¬ (∀ pts ∈ point_sets, shape pts = shape point_sets.headI) then ⟨false, [], []⟩
  else
    let aligned := point_sets
    let mean_shape := meanSet aligned
    let r := gpaLoop svd allow_scale tolerance point_sets max_iterations.toNat
      aligned mean_shape
    ⟨true, r.1, r.2⟩

/-- The GPA loop instrumented with the iteration count the source reports
in its diagnostic prints: `done` passes have already run; convergence at
the next pass reports `done + 1`, an exhausted cap reports the total number
of passes run.  The loop itself is unchanged. -/
def gpaLoopCount (svd : Mat3 → Mat3 × Mat3) (allow_scale : Bool) (tolerance : ℝ)
    (point_sets : List PtSet) :
    ℕ → ℕ → List PtSet → PtSet → List PtSet × PtSet × ℕ
  | 0, done, aligned, mean => (aligned, mean, done)
  | fuel + 1, done, aligned, mean =>
    let aligned2 := gpaPass svd allow_scale point_sets aligned mean
    let mean2 := meanSet aligned2
    if maxAbsDiff mean2 mean < tolerance then (aligned2, mean2, done + 1)
    else gpaLoopCount svd allow_scale tolerance point_sets fuel (done + 1) aligned2 mean2

/-- The number of iterations a valid GPA run performs: the 1-based
iteration at which convergence occurred, or the number of passes run when
the cap was exhausted. -/
def gpaIterationsUsed (svd : Mat3 → Mat3 × Mat3) (point_sets : List PtSet)
    (max_iterations : ℤ) (tolerance : ℝ) (allow_scale : Bool) : ℕ :=
  (gpaLoopCount svd allow_scale tolerance point_sets max_iterations.toNat 0
    point_sets (meanSet point_sets)).2.2

/-! Quantities named by the spec, stated in the spec's own terms, to be
compared with the components the source returns. -/

/-- Frobenius norm of an array: the square root of the sum of its squared
entries. -/
def frobNorm (A : PtSet) : ℝ := Real.sqrt (frobSq A)

/-- The scale factor the spec prescribes: the ratio of centered-reference to
centered-target Frobenius norms when scaling is allowed, else exactly 1. -/
def spec_scale (ref tgt : PtSet) (allow_scale : Bool) : ℝ :=
  if allow_scale then frobNorm (centered ref) / frobNorm (centered tgt) else 1

/-- The cross-covariance the spec prescribes:
`H = (scaled centered target)ᵀ · (centered reference)`. -/
def spec_H (ref tgt : PtSet) (allow_scale : Bool) : Mat3 :=
  crossCov (smulSet (spec_scale ref tgt allow_scale) (centered tgt)) (centered ref)

/-- The rotation the spec prescribes: `R = V·Uᵀ` from the SVD of `H`,
with the last row of `Vᵗ` negated and `R` recomputed when reflections are
disallowed and `det R < 0`. -/
def spec_R (svd : Mat3 → Mat3 × Mat3) (ref tgt : PtSet)
    (allow_scale allow_reflection : Bool) : Mat3 :=
  let U := (svd (spec_H ref tgt allow_scale)).1
  let Vt := (svd (spec_H ref tgt allow_scale)).2
  if allow_reflection = false ∧ (Vt.transpose * U.transpose).det < 0 then
    (negLastRow Vt).transpose * U.transpose
  else Vt.transpose * U.transpose

/-- The translation the spec prescribes:
`reference_centroid − R·(scale·target_centroid)`. -/
def spec_translation (svd : Mat3 → Mat3 × Mat3) (ref tgt : PtSet)
    (allow_scale allow_reflection : Bool) : Fin 3 → ℝ :=
  toVec3 (centroid ref) - (spec_R svd ref tgt allow_scale allow_reflection).mulVec
    (spec_scale ref tgt allow_scale • toVec3 (centroid tgt))

/-- The upper-left 3×3 linear block of a homogeneous transform. -/
def linearBlock (M : Mat4) : Mat3 := Matrix.of fun i j => M i.castSucc j.castSucc

/-- The spec's scale-recovery scenario:
`target = k·(reference − centroid) + centroid`. -/
def scaledAbout (k : ℝ) (A : PtSet) : PtSet :=
  A.map fun r => vadd (vsmul k (vsub r (centroid A))) (centroid A)

/-- Euclidean distance of two 3-vectors. -/
def euclDist (u v : Fin 3 → ℝ) : ℝ := Real.sqrt (∑ i, (u i - v i) ^ 2)

/-- A target row mapped through a transform in homogeneous coordinates,
as the spec states it: append 1, multiply by the matrix, keep the first
three components. -/
def specMapped (M : Mat4) (p : Pt) : Fin 3 → ℝ := fun i =>
  ∑ j : Fin 4, M i.castSucc j * (if (j : ℕ) < 3 then p.getD (j : ℕ) 0 else 1)

/-- The root-mean-square Euclidean distance between the rows of `ref` and
the transformed rows of `tgt`, as the spec states it. -/
def spec_rmse (ref tgt : PtSet) (M : Mat4) : ℝ :=
  Real.sqrt ((∑ p ∈ Finset.range ref.length,
    euclDist (toVec3 (ref.getD p [])) (specMapped M (tgt.getD p [])) ^ 2) /
      (ref.length : ℝ))

/-! Concrete inputs used by witnesses and counterexamples. -/

/-- The trivial decomposition used by concrete witnesses: `U = Vᵗ = I`
(orthogonal, as a genuine SVD's factors are). -/
def idSvd : Mat3 → Mat3 × Mat3 := fun _ => (1, 1)

/-- The spec's own concrete scenario's reference triangle. -/
def A0 : PtSet := [[0, 0, 0], [1, 0, 0], [0, 1, 0]]

/-- A degenerate reference: three coincident points (zero spread). -/
def Z0 : PtSet := [[0, 0, 0], [0, 0, 0], [0, 0, 0]]

/-- A two-point set, shape (2, 3). -/
def A2 : PtSet := [[0, 0, 0], [1, 0, 0]]

/-- Four points whose centered Frobenius norm is exactly 1e-10
(sum of squares 4·(5e-11)² = 1e-20). -/
def B0 : PtSet := [[5e-11, 0, 0], [-5e-11, 0, 0], [5e-11, 0, 0], [-5e-11, 0, 0]]

/-- A four-point reference of shape (4, 3). -/
def R40 : PtSet := [[0, 0, 0], [1, 0, 0], [0, 1, 0], [0, 0, 1]]

/-- A zero-size numpy array of shape (3, 0): three points with no
coordinates.  Paired with an equal-shape partner it passes every GPA
validation check. -/
def E0 : PtSet := [[], [], []]

/-- numpy `np.max` over the entries of an array, as the partial function it
is: on a zero-size array `np.max` raises ValueError (zero-size array to
reduction operation maximum which has no identity), modelled as `none`;
otherwise the maximum entry. -/
def npMax (l : List ℝ) : Option ℝ :=
  match l with
  | [] => none
  | x :: xs => some (xs.foldl max x)

/-- The entries of `np.abs(A - B)` in row-major order: exactly the array
the source's GPA convergence check hands to `np.max`. -/
def absDiffEntries (A B : PtSet) : List ℝ :=
  (List.zipWith (fun r s => List.zipWith (fun a b => |a - b|) r s) A B).flatten

end

/-! Entry-level lemmas about the row and array operations. -/

lemma length_vadd (u v : Pt) : (vadd u v).length = min u.length v.length := by
  simp [vadd]

lemma length_vsub (u v : Pt) : (vsub u v).length = min u.length v.length := by
  simp [vsub]

lemma length_vsmul (c : ℝ) (u : Pt) : (vsmul c u).length = u.length :=
  List.length_map _ _

lemma getD_vsmul (c : ℝ) (u : Pt) (p : ℕ) :
    (vsmul c u).getD p 0 = c * u.getD p 0 := by
  induction u generalizing p with
  | nil => simp [vsmul]
  | cons a u ih =>
    cases p with
    | zero => simp [vsmul]
    | succ p => simpa [vsmul] using ih p

lemma getD_vadd (u v : Pt) (p : ℕ) (hu : p < u.length) (hv : p < v.length) :
    (vadd u v).getD p 0 = u.getD p 0 + v.getD p 0 := by
  induction u generalizing v p with
  | nil => simp at hu
  | cons a u ih =>
    cases v with
    | nil => simp at hv
    | cons b v =>
      cases p with
      | zero => simp [vadd]
      | succ p =>
        simp only [List.length_cons, Nat.succ_lt_succ_iff] at hu hv
        simpa [vadd] using ih v p hu hv

lemma getD_vsub (u v : Pt) (p : ℕ) (hu : p < u.length) (hv : p < v.length) :
    (vsub u v).getD p 0 = u.getD p 0 - v.getD p 0 := by
  induction u generalizing v p with
  | nil => simp at hu
  | cons a u ih =>
    cases v with
    | nil => simp at hv
    | cons b v =>
      cases p with
      | zero => simp [vsub]
      | succ p =>
        simp only [List.length_cons, Nat.succ_lt_succ_iff] at hu hv
        simpa [vsub] using ih v p hu hv

lemma getD_map_of_lt {α β : Type} [Inhabited α] [Inhabited β] (f : α → β)
    (l : List α) (p : ℕ) (hp : p < l.length) (da : α) (db : β) :
    (l.map f).getD p db = f (l.getD p da) := by
  induction l generalizing p with
  | nil => simp at hp
  | cons a l ih =>
    cases p with
    | zero => simp
    | succ p =>
      simp only [List.length_cons, Nat.succ_lt_succ_iff] at hp
      simpa using ih p hp

lemma zipWith_getD {α β γ : Type} (f : α → β → γ) (A : List α) (B : List β)
    (p : ℕ) (hA : p < A.length) (hB : p < B.length) (da : α) (db : β) (dc : γ) :
    (List.zipWith f A B).getD p dc = f (A.getD p da) (B.getD p db) := by
  induction A generalizing B p with
  | nil => simp at hA
  | cons a A ih =>
    cases B with
    | nil => simp at hB
    | cons b B =>
      cases p with
      | zero => simp
      | succ p =>
        simp only [List.length_cons, Nat.succ_lt_succ_iff] at hA hB
        simpa using ih B p hA hB

lemma vsub_vadd_cancel (x c : Pt) (h : x.length ≤ c.length) :
    vsub (vadd x c) c = x := by
  induction x generalizing c with
  | nil => simp [vadd, vsub]
  | cons a x ih =>
    cases c with
    | nil => simp at h
    | cons b c =>
      simp only [List.length_cons, Nat.succ_le_succ_iff] at h
      calc vsub (vadd (a :: x) (b :: c)) (b :: c)
          = (a + b - b) :: vsub (vadd x c) c := rfl
        _ = a :: x := by rw [ih c h]; ring_nf

lemma sum_map_affine {α : Type} (A : List α) (f : α → ℝ) (k b : ℝ) :
    (A.map (fun x => k * f x + b)).sum = k * (A.map f).sum + A.length * b := by
  induction A with
  | nil => simp
  | cons a A ih => simp [ih]; ring

lemma zipWith_map_sum {γ α β : Type} (f : γ → ℝ) (g : α → β → γ)
    (A : List α) (B : List β) (da : α) (db : β)
    (h : A.length ≤ B.length) :
    ((List.zipWith g A B).map f).sum =
      ∑ p ∈ Finset.range A.length, f (g (A.getD p da) (B.getD p db)) := by
  induction A generalizing B with
  | nil => simp
  | cons a A ih =>
    cases B with
    | nil => simp at h
    | cons b B =>
      simp only [List.length_cons, Nat.succ_le_succ_iff] at h
      rw [List.zipWith_cons_cons, List.map_cons, List.sum_cons, ih B h]
      rw [List.length_cons, Finset.sum_range_succ']
      simp [add_comm]

/-! Lemmas reading off the components of the assembled 4×4 transform. -/

lemma buildTransform_ul (R : Mat3) (s : ℝ) (t : Fin 3 → ℝ) (i j : Fin 3) :
    buildTransform R s t i.castSucc j.castSucc = R i j * s := by
  simp [buildTransform, Fin.coe_castSucc, i.isLt, j.isLt]

lemma buildTransform_tr (R : Mat3) (s : ℝ) (t : Fin 3 → ℝ) (i : Fin 3) :
    buildTransform R s t i.castSucc 3 = t i := by
  simp only [buildTransform, Matrix.of_apply]
  rw [dif_pos (show ((i.castSucc : Fin 4) : ℕ) < 3 by simp [Fin.coe_castSucc, i.isLt])]
  rw [dif_neg (show ¬(((3 : Fin 4) : ℕ) < 3) by decide)]
  exact congrArg t (Fin.ext (by simp))

lemma buildTransform_bot (R : Mat3) (s : ℝ) (t : Fin 3 → ℝ) :
    buildTransform R s t 3 = ![0, 0, 0, 1] := by
  funext j
  simp only [buildTransform, Matrix.of_apply]
  rw [dif_neg (show ¬(((3 : Fin 4) : ℕ) < 3) by decide)]
  fin_cases j <;> simp [Fin.ext_iff, show ((3 : Fin 4) : ℕ) = 3 from rfl]

lemma linearBlock_buildTransform (R : Mat3) (s : ℝ) (t : Fin 3 → ℝ) :
    linearBlock (buildTransform R s t) = s • R := by
  ext i j
  simp [linearBlock, buildTransform_ul, mul_comm]

/-- Evaluation of `procrustes_alignment` on inputs that pass every check:
the result is success, with the transform assembled exactly from the
spec-side rotation, scale and translation. -/
lemma align_eval (svd : Mat3 → Mat3 × Mat3) (ref tgt : PtSet) (asc arefl : Bool)
    (hsh : shape ref = shape tgt) (hN : 3 ≤ ref.length) (hd : (shape ref).2 = 3)
    (hdeg : asc = true → 1e-10 < frobNorm (centered tgt)) :
    procrustes_alignment svd ref tgt asc arefl =
      ⟨true,
       buildTransform (spec_R svd ref tgt asc arefl) (spec_scale ref tgt asc)
         (spec_translation svd ref tgt asc arefl),
       spec_scale ref tgt asc⟩ := by
  rw [procrustes_alignment]
  rw [if_neg (by simp [hsh])]
  rw [if_neg (by omega)]
  rw [if_neg (by simp [hd])]
  cases asc with
  | true =>
    rw [if_pos rfl]
    rw [if_pos (show Real.sqrt (frobSq (centered tgt)) > 1e-10 from hdeg rfl)]
    rw [alignRest]
    rfl
  | false =>
    rw [if_neg (by simp)]
    rw [alignRest]
    rfl

/-! Determinant facts for the reflection correction. -/

lemma det_negLastRow (M : Mat3) : (negLastRow M).det = -M.det := by
  rw [negLastRow, show -(M 2) = (-1 : ℝ) • (M 2) from (neg_one_smul ℝ (M 2)).symm,
    Matrix.det_updateRow_smul, Matrix.updateRow_eq_self]
  ring

lemma det_pm_one_of_orth {A : Mat3} (h : A.transpose * A = 1) :
    A.det = 1 ∨ A.det = -1 := by
  have h2 : A.det * A.det = 1 := by
    have h3 := congrArg Matrix.det h
    rwa [Matrix.det_mul, Matrix.det_transpose, Matrix.det_one] at h3
  exact mul_self_eq_one_iff.mp h2

/-- With orthogonal SVD factors and reflections disallowed, the corrected
rotation always has determinant exactly +1. -/
lemma spec_R_det_one (svd : Mat3 → Mat3 × Mat3) (ref tgt : PtSet) (asc : Bool)
    (hU : (svd (spec_H ref tgt asc)).1.transpose * (svd (spec_H ref tgt asc)).1 = 1)
    (hVt : (svd (spec_H ref tgt asc)).2.transpose * (svd (spec_H ref tgt asc)).2 = 1) :
    (spec_R svd ref tgt asc false).det = 1 := by
  have hdetU := det_pm_one_of_orth hU
  have hdetV := det_pm_one_of_orth hVt
  have hR0 : ((svd (spec_H ref tgt asc)).2.transpose *
      (svd (spec_H ref tgt asc)).1.transpose).det =
      (svd (spec_H ref tgt asc)).2.det * (svd (spec_H ref tgt asc)).1.det := by
    rw [Matrix.det_mul, Matrix.det_transpose, Matrix.det_transpose]
  rw [spec_R]
  by_cases hneg : ((svd (spec_H ref tgt asc)).2.transpose *
      (svd (spec_H ref tgt asc)).1.transpose).det < 0
  · rw [if_pos (by exact ⟨rfl, hneg⟩)]
    have hc : ((negLastRow (svd (spec_H ref tgt asc)).2).transpose *
        (svd (spec_H ref tgt asc)).1.transpose).det =
        -((svd (spec_H ref tgt asc)).2.det * (svd (spec_H ref tgt asc)).1.det) := by
      rw [Matrix.det_mul, Matrix.det_transpose, Matrix.det_transpose, det_negLastRow]
      ring
    rw [hc]
    rw [hR0] at hneg
    rcases hdetU with h1 | h1 <;> rcases hdetV with h2 | h2 <;>
      rw [h1, h2] at hneg ⊢ <;> norm_num at hneg ⊢
  · rw [if_neg (by tauto)]
    rw [hR0]
    rw [hR0] at hneg
    rcases hdetU with h1 | h1 <;> rcases hdetV with h2 | h2 <;>
      rw [h1, h2] at hneg ⊢ <;> norm_num at hneg ⊢

/-! The instrumented GPA loop agrees with the source's loop on the
components the source returns. -/

lemma gpaLoopCount_agrees (svd : Mat3 → Mat3 × Mat3) (asc : Bool) (tol : ℝ)
    (sets : List PtSet) :
    ∀ (fuel done : ℕ) (aligned : List PtSet) (mean : PtSet),
      ((gpaLoopCount svd asc tol sets fuel done aligned mean).1,
       (gpaLoopCount svd asc tol sets fuel done aligned mean).2.1) =
        gpaLoop svd asc tol sets fuel aligned mean := by
  intro fuel
  induction fuel with
  | zero => intro done aligned mean; rfl
  | succ fuel ih =>
    intro done aligned mean
    rw [gpaLoop, gpaLoopCount]
    by_cases hc : maxAbsDiff (meanSet (gpaPass svd asc sets aligned mean)) mean < tol
    · rw [if_pos hc, if_pos hc]
    · rw [if_neg hc, if_neg hc]
      exact ih (done + 1) _ _

/-! Concrete evaluations at the witness inputs. -/

lemma centroid_A0 : centroid A0 = [1 / 3, 1 / 3, 0] := by
  norm_num [centroid, colSum, A0, vadd, vsmul, List.replicate, shape]

lemma frobSq_centered_A0 : frobSq (centered A0) = 4 / 3 := by
  norm_num [frobSq, centered, centroid, colSum, A0, vadd, vsub, vsmul, vsumsq,
    List.replicate]

lemma sqrt43_gt : (Real.sqrt (4 / 3) : ℝ) > 1e-10 := by
  rw [gt_iff_lt, Real.lt_sqrt (by norm_num)]
  norm_num

lemma sqrt43_ne : (Real.sqrt (4 / 3) : ℝ) ≠ 0 := by
  rw [Real.sqrt_ne_zero']
  norm_num

lemma frobNorm_centered_A0_gt : 1e-10 < frobNorm (centered A0) := by
  rw [frobNorm, frobSq_centered_A0]
  exact sqrt43_gt

lemma buildTransform_one : buildTransform 1 1 0 = (1 : Mat4) := by
  ext i j
  fin_cases i <;> fin_cases j <;>
    simp [buildTransform, Matrix.one_apply] <;> decide

lemma align_A0 : procrustes_alignment idSvd A0 A0 true false = ⟨true, 1, 1⟩ := by
  rw [procrustes_alignment]
  rw [if_neg (by norm_num [shape, A0])]
  rw [if_neg (by norm_num [A0])]
  rw [if_neg (by norm_num [shape, A0])]
  rw [if_pos rfl]
  simp only [frobSq_centered_A0]
  rw [if_pos sqrt43_gt]
  rw [div_self sqrt43_ne]
  rw [alignRest]
  simp only [idSvd, Matrix.transpose_one, one_mul]
  rw [if_neg (by norm_num [Matrix.det_one])]
  have htr : toVec3 (centroid A0) - Matrix.mulVec 1 ((1 : ℝ) • toVec3 (centroid A0)) = 0 := by
    simp [Matrix.one_mulVec]
  rw [htr, buildTransform_one]

lemma applyTransform_one (a b c : ℝ) : applyTransform 1 [a, b, c] = [a, b, c] := by
  simp only [applyTransform, List.ofFn_succ, List.ofFn_zero, Fin.sum_univ_four]
  norm_num [Matrix.one_apply, Fin.succ, Fin.castSucc, Fin.castAdd, Fin.castLE, Fin.ext_iff,
    show ((3 : Fin 4) : ℕ) = 3 from rfl]

lemma map_applyTransform_one_A0 : A0.map (applyTransform 1) = A0 := by
  simp [A0, applyTransform_one]

lemma meanSet_A0 : meanSet [A0, A0] = A0 := by
  norm_num [meanSet, setSum, smulSet, A0, vadd, vsmul, shape, List.replicate]

lemma maxAbsDiff_A0 : maxAbsDiff A0 A0 = 0 := by
  norm_num [maxAbsDiff, A0, List.replicate, max_self]

lemma gpaPass_A0 : gpaPass idSvd true [A0, A0] [A0, A0] A0 = [A0, A0] := by
  simp [gpaPass, align_A0, map_applyTransform_one_A0]

lemma gpaLoop_A0 (fuel : ℕ) :
    gpaLoop idSvd true 1e-6 [A0, A0] (fuel + 1) [A0, A0] A0 = ([A0, A0], A0) := by
  rw [gpaLoop]
  simp only [gpaPass_A0, meanSet_A0, maxAbsDiff_A0]
  rw [if_pos (by norm_num)]

lemma gpaLoopCount_A0 (fuel done : ℕ) :
    gpaLoopCount idSvd true 1e-6 [A0, A0] (fuel + 1) done [A0, A0] A0 =
      ([A0, A0], A0, done + 1) := by
  rw [gpaLoopCount]
  simp only [gpaPass_A0, meanSet_A0, maxAbsDiff_A0]
  rw [if_pos (by norm_num)]

lemma gpa_A0_five :
    procrustes_superimposition idSvd [A0, A0] 5 1e-6 true = ⟨true, [A0, A0], A0⟩ := by
  rw [procrustes_superimposition]
  rw [if_neg (by norm_num)]
  rw [if_neg (by simp)]
  simp only [meanSet_A0]
  rw [show ((5 : ℤ).toNat) = 4 + 1 from rfl, gpaLoop_A0]

lemma gpa_A0_zero :
    procrustes_superimposition idSvd [A0, A0] 0 1e-6 true = ⟨true, [A0, A0], A0⟩ := by
  rw [procrustes_superimposition]
  rw [if_neg (by norm_num)]
  rw [if_neg (by simp)]
  simp only [meanSet_A0]
  rfl

lemma iters_A0_five : gpaIterationsUsed idSvd [A0, A0] 5 1e-6 true = 1 := by
  rw [gpaIterationsUsed]
  simp only [meanSet_A0]
  rw [show ((5 : ℤ).toNat) = 4 + 1 from rfl, gpaLoopCount_A0]

lemma iters_A0_zero : gpaIterationsUsed idSvd [A0, A0] 0 1e-6 true = 0 := by
  rw [gpaIterationsUsed]
  rfl

lemma ext_getD (u v : Pt) (hl : u.length = v.length)
    (h : ∀ p, u.getD p 0 = v.getD p 0) : u = v := by
  induction u generalizing v with
  | nil => cases v with
    | nil => rfl
    | cons b v => simp at hl
  | cons a u ih =>
    cases v with
    | nil => simp at hl
    | cons b v =>
      have h0 := h 0
      simp only [List.getD_cons_zero] at h0
      simp only [List.length_cons, Nat.succ_inj] at hl
      rw [h0, ih v hl (fun p => by simpa using h (p + 1))]

lemma getD_replicate_zero (d p : ℕ) : (List.replicate d (0 : ℝ)).getD p 0 = 0 := by
  induction d generalizing p with
  | zero => simp
  | succ d ih => cases p <;> simp [List.replicate_succ, ih]

lemma colSum_length (d : ℕ) (A : PtSet) (h : ∀ r ∈ A, d ≤ r.length) :
    (colSum d A).length = d := by
  induction A with
  | nil => simp [colSum]
  | cons r A ih =>
    have hr : d ≤ r.length := h r (by simp)
    have ht : (colSum d A).length = d := ih (fun s hs => h s (by simp [hs]))
    rw [colSum, List.foldr_cons]
    rw [show List.foldr vadd (List.replicate d 0) A = colSum d A from rfl]
    rw [length_vadd, ht]
    omega

lemma colSum_getD (d : ℕ) (A : PtSet) (h : ∀ r ∈ A, d ≤ r.length) (p : ℕ)
    (hp : p < d) :
    (colSum d A).getD p 0 = (A.map (fun r => r.getD p 0)).sum := by
  induction A with
  | nil => simp [colSum, getD_replicate_zero]
  | cons r A ih =>
    have hr : d ≤ r.length := h r (by simp)
    have ht : (colSum d A).length = d := colSum_length d A (fun s hs => h s (by simp [hs]))
    rw [colSum, List.foldr_cons,
      show List.foldr vadd (List.replicate d 0) A = colSum d A from rfl]
    rw [getD_vadd _ _ p (by omega) (by omega)]
    rw [ih (fun s hs => h s (by simp [hs]))]
    simp

lemma centroid_length (A : PtSet) (h : ∀ r ∈ A, A.headI.length ≤ r.length) :
    (centroid A).length = A.headI.length := by
  rw [centroid, length_vsmul]
  exact colSum_length _ _ h

lemma centroid_getD (A : PtSet) (h : ∀ r ∈ A, A.headI.length ≤ r.length) (p : ℕ)
    (hp : p < A.headI.length) :
    (centroid A).getD p 0 =
      (1 / (A.length : ℝ)) * (A.map (fun r => r.getD p 0)).sum := by
  rw [centroid, getD_vsmul, colSum_getD _ _ h p hp]

lemma scaledAbout_row_length (k : ℝ) (A : PtSet)
    (h : ∀ r ∈ A, r.length = A.headI.length) (r : Pt) (hr : r ∈ A) :
    (vadd (vsmul k (vsub r (centroid A))) (centroid A)).length = A.headI.length := by
  have hc : (centroid A).length = A.headI.length :=
    centroid_length A (fun s hs => (h s hs).ge)
  rw [length_vadd, length_vsmul, length_vsub, hc, h r hr]
  omega

lemma shape_scaledAbout (k : ℝ) (A : PtSet)
    (h : ∀ r ∈ A, r.length = A.headI.length) (hne : A ≠ []) :
    shape (scaledAbout k A) = shape A := by
  cases A with
  | nil => simp at hne
  | cons r A =>
    rw [shape, shape, scaledAbout, List.map_cons]
    rw [List.length_cons, List.length_map]
    rw [show ((vadd (vsmul k (vsub r (centroid (r :: A)))) (centroid (r :: A)) ::
      List.map (fun s => vadd (vsmul k (vsub s (centroid (r :: A)))) (centroid (r :: A))) A).headI)
      = vadd (vsmul k (vsub r (centroid (r :: A)))) (centroid (r :: A)) from rfl]
    rw [scaledAbout_row_length k (r :: A) h r (by simp)]
    simp

lemma getD_scaledAbout_row (k : ℝ) (A : PtSet)
    (h : ∀ r ∈ A, r.length = A.headI.length) (r : Pt) (hr : r ∈ A) (p : ℕ)
    (hp : p < A.headI.length) :
    (vadd (vsmul k (vsub r (centroid A))) (centroid A)).getD p 0 =
      k * (r.getD p 0 - (centroid A).getD p 0) + (centroid A).getD p 0 := by
  have hc : (centroid A).length = A.headI.length :=
    centroid_length A (fun s hs => (h s hs).ge)
  rw [getD_vadd _ _ p (by rw [length_vsmul, length_vsub, hc, h r hr]; omega) (by omega)]
  rw [getD_vsmul, getD_vsub _ _ p (by rw [h r hr]; omega) (by omega)]

lemma centroid_scaledAbout (k : ℝ) (A : PtSet)
    (h : ∀ r ∈ A, r.length = A.headI.length) (hne : A ≠ []) :
    centroid (scaledAbout k A) = centroid A := by
  have hN : (A.length : ℝ) ≠ 0 :=
    Nat.cast_ne_zero.mpr (List.length_pos.mpr hne).ne'
  have hsh := shape_scaledAbout k A h hne
  have hd : (scaledAbout k A).headI.length = A.headI.length :=
    congrArg Prod.snd hsh
  have hlen : (scaledAbout k A).length = A.length := by
    rw [scaledAbout, List.length_map]
  have hrows : ∀ s ∈ scaledAbout k A, (scaledAbout k A).headI.length ≤ s.length := by
    intro s hs
    rw [scaledAbout] at hs
    obtain ⟨r, hr, rfl⟩ := List.mem_map.mp hs
    rw [hd, scaledAbout_row_length k A h r hr]
  have hrowsA : ∀ r ∈ A, A.headI.length ≤ r.length := fun r hr => (h r hr).ge
  apply ext_getD _ _ (by rw [centroid_length _ hrows, centroid_length _ hrowsA, hd])
  intro p
  by_cases hp : p < A.headI.length
  · rw [centroid_getD _ hrows p (by rw [hd]; omega), centroid_getD _ hrowsA p hp]
    rw [hlen]
    rw [scaledAbout, List.map_map]
    have hmap : (A.map ((fun s => s.getD p 0) ∘
        fun r => vadd (vsmul k (vsub r (centroid A))) (centroid A))) =
        A.map (fun r => k * r.getD p 0 +
          ((centroid A).getD p 0 - k * (centroid A).getD p 0)) := by
      apply List.map_congr_left
      intro r hr
      have := getD_scaledAbout_row k A h r hr p hp
      simp only [Function.comp]
      rw [this]
      ring
    rw [hmap, sum_map_affine]
    have hcp : (centroid A).getD p 0 =
        (1 / (A.length : ℝ)) * (A.map (fun r => r.getD p 0)).sum :=
      centroid_getD _ hrowsA p hp
    rw [hcp]
    field_simp
  · have h1 : (centroid (scaledAbout k A)).length ≤ p := by
      rw [centroid_length _ hrows, hd]; omega
    have h2 : (centroid A).length ≤ p := by
      rw [centroid_length _ hrowsA]; omega
    rw [List.getD_eq_default _ _ h1, List.getD_eq_default _ _ h2]

lemma centered_scaledAbout (k : ℝ) (A : PtSet)
    (h : ∀ r ∈ A, r.length = A.headI.length) (hne : A ≠ []) :
    centered (scaledAbout k A) = smulSet k (centered A) := by
  have hc : (centroid A).length = A.headI.length :=
    centroid_length A (fun s hs => (h s hs).ge)
  rw [centered, centroid_scaledAbout k A h hne, scaledAbout, List.map_map,
    centered, smulSet, List.map_map]
  apply List.map_congr_left
  intro r hr
  simp only [Function.comp]
  apply vsub_vadd_cancel
  rw [length_vsmul, length_vsub, hc, h r hr]
  omega

lemma vsumsq_vsmul (k : ℝ) (u : Pt) : vsumsq (vsmul k u) = k ^ 2 * vsumsq u := by
  rw [vsumsq, vsmul, List.map_map, vsumsq]
  rw [show (((fun x => x ^ 2) ∘ fun x => k * x) : ℝ → ℝ) = fun x => k ^ 2 * x ^ 2 by
    funext x; simp [mul_pow]]
  exact List.sum_map_mul_left _ _ _

lemma frobSq_smulSet (k : ℝ) (A : PtSet) : frobSq (smulSet k A) = k ^ 2 * frobSq A := by
  rw [frobSq, smulSet, List.map_map, frobSq]
  rw [show ((vsumsq ∘ vsmul k) : Pt → ℝ) = fun r => k ^ 2 * vsumsq r by
    funext r; simp [Function.comp, vsumsq_vsmul]]
  exact List.sum_map_mul_left _ _ _

lemma frobNorm_smulSet (k : ℝ) (hk : 0 ≤ k) (A : PtSet) :
    frobNorm (smulSet k A) = k * frobNorm A := by
  rw [frobNorm, frobSq_smulSet, Real.sqrt_mul (sq_nonneg k), Real.sqrt_sq hk, frobNorm]

/-- Core computation behind the spec's scale-recovery scenario: aligning
`reference` to `k·(reference − centroid) + centroid` succeeds and returns
scale `1/k` (the ratio of centered norms), not `k`. -/
lemma scale_recovery_core (svd : Mat3 → Mat3 × Mat3) (ref : PtSet) (k : ℝ)
    (arefl : Bool) (hrect : ∀ r ∈ ref, r.length = 3) (hN : 3 ≤ ref.length)
    (hk : 0 < k) (hspread : 1e-10 < k * frobNorm (centered ref)) :
    (procrustes_alignment svd ref (scaledAbout k ref) true arefl).success = true ∧
    (procrustes_alignment svd ref (scaledAbout k ref) true arefl).scale = k⁻¹ := by
  have hne : ref ≠ [] := by
    intro e
    rw [e] at hN
    simp at hN
  have hd : ref.headI.length = 3 := by
    cases ref with
    | nil => exact absurd rfl hne
    | cons r A => exact hrect r (by simp)
  have hA : ∀ r ∈ ref, r.length = ref.headI.length := by
    intro r hr
    rw [hd]
    exact hrect r hr
  have hcent : centered (scaledAbout k ref) = smulSet k (centered ref) :=
    centered_scaledAbout k ref hA hne
  have hfn : frobNorm (centered (scaledAbout k ref)) = k * frobNorm (centered ref) := by
    rw [hcent, frobNorm_smulSet k hk.le]
  have hfpos : 0 < frobNorm (centered ref) := by
    rcases lt_or_le 0 (frobNorm (centered ref)) with hgt | hle
    · exact hgt
    · nlinarith
  rw [align_eval svd ref (scaledAbout k ref) true arefl
    (shape_scaledAbout k ref hA hne).symm hN (by rw [shape]; exact hd)
    (fun _ => by rw [hfn]; exact hspread)]
  refine ⟨rfl, ?_⟩
  show spec_scale ref (scaledAbout k ref) true = k⁻¹
  rw [spec_scale, if_pos rfl, hfn, mul_comm, ← div_div, div_self (ne_of_gt hfpos), one_div]

/-! Helpers for the RMSE claim. -/

lemma applyTransform_eq_ofFn (M : Mat4) (p : Pt) :
    applyTransform M p = List.ofFn (specMapped M p) := rfl

lemma euclDist_sq (u v : Fin 3 → ℝ) :
    euclDist u v ^ 2 = ∑ i, (u i - v i) ^ 2 := by
  rw [euclDist, Real.sq_sqrt (Finset.sum_nonneg fun i _ => sq_nonneg _)]

lemma vsumsq_vsub_ofFn (r : Pt) (hr : r.length = 3) (v : Fin 3 → ℝ) :
    vsumsq (vsub r (List.ofFn v)) = ∑ i : Fin 3, (toVec3 r i - v i) ^ 2 := by
  obtain ⟨a, b, c, rfl⟩ := List.length_eq_three.mp hr
  simp only [List.ofFn_succ, List.ofFn_zero]
  norm_num [vsub, vsumsq, toVec3, Fin.sum_univ_three]
  ring

/-! Concrete evaluations at the degenerate and boundary inputs. -/

lemma align_Z0 :
    procrustes_alignment idSvd Z0 A0 true false =
      ⟨true, buildTransform 1 0 0, 0⟩ := by
  rw [procrustes_alignment]
  rw [if_neg (by norm_num [shape, Z0, A0])]
  rw [if_neg (by norm_num [Z0])]
  rw [if_neg (by norm_num [shape, Z0])]
  rw [if_pos rfl]
  have hz : frobSq (centered Z0) = 0 := by
    norm_num [frobSq, centered, centroid, colSum, Z0, vadd, vsub, vsmul, vsumsq,
      List.replicate]
  simp only [hz, frobSq_centered_A0, Real.sqrt_zero, zero_div]
  rw [if_pos sqrt43_gt]
  rw [alignRest]
  simp only [idSvd, Matrix.transpose_one, one_mul]
  rw [if_neg (by norm_num [Matrix.det_one])]
  have htr : toVec3 (centroid Z0) - Matrix.mulVec 1 ((0 : ℝ) • toVec3 (centroid A0)) = 0 := by
    have hc : centroid Z0 = [0, 0, 0] := by
      norm_num [centroid, colSum, Z0, vadd, vsmul, List.replicate]
    funext i
    simp [Matrix.one_mulVec, hc, toVec3]
    fin_cases i <;> simp
  rw [htr]

lemma centroid_B0 : centroid B0 = [0, 0, 0] := by
  norm_num [centroid, colSum, B0, vadd, vsmul, List.replicate]

lemma frobSq_centered_B0 : frobSq (centered B0) = 1e-20 := by
  rw [centered, centroid_B0]
  norm_num [frobSq, B0, vsub, vsumsq]

lemma frobNorm_centered_B0 : frobNorm (centered B0) = 1e-10 := by
  rw [frobNorm, frobSq_centered_B0,
    show (1e-20 : ℝ) = (1e-10 : ℝ) ^ 2 by norm_num]
  exact Real.sqrt_sq (by norm_num)

lemma align_B0_fails :
    (procrustes_alignment idSvd R40 B0 true false).success = false := by
  rw [procrustes_alignment]
  rw [if_neg (by norm_num [shape, R40, B0])]
  rw [if_neg (by norm_num [R40])]
  rw [if_neg (by norm_num [shape, R40])]
  rw [if_pos rfl]
  rw [if_neg (by
    rw [show Real.sqrt (frobSq (centered B0)) = frobNorm (centered B0) from rfl,
      frobNorm_centered_B0]
    exact lt_irrefl _)]

lemma alignRest_success (svd : Mat3 → Mat3 × Mat3) (arefl : Bool)
    (rc tc : Pt) (rcd tcd : PtSet) (s : ℝ) :
    (alignRest svd arefl rc tc rcd tcd s).success = true := rfl

/-- C1: on every valid input (equal N×3 shapes, N ≥ 3 and, when scaling is
allowed, a centered-target Frobenius norm above 1e-10),
`procrustes_alignment` succeeds, and its returned 4×4 transform is
assembled exactly as the spec states: upper-left 3×3 block `R·scale`, top
of the last column `reference_centroid − R·(scale·target_centroid)`,
bottom row `[0,0,0,1]`, with `R` the reflection-corrected SVD rotation
`V·Uᵗ` of `H` and `scale` the ratio of centered-reference to
centered-target Frobenius norms when scaling is allowed and exactly 1
otherwise. -/
theorem alignment_transform_follows_spec (svd : Mat3 → Mat3 × Mat3)
    (ref tgt : PtSet) (asc arefl : Bool)
    (hsh : shape ref = shape tgt) (hN : 3 ≤ ref.length) (hd : (shape ref).2 = 3)
    (hdeg : asc = true → 1e-10 < frobNorm (centered tgt)) :
    (procrustes_alignment svd ref tgt asc arefl).success = true ∧
    (procrustes_alignment svd ref tgt asc arefl).scale = spec_scale ref tgt asc ∧
    (∀ i j : Fin 3,
      (procrustes_alignment svd ref tgt asc arefl).transform i.castSucc j.castSucc =
        spec_R svd ref tgt asc arefl i j * spec_scale ref tgt asc) ∧
    (∀ i : Fin 3,
      (procrustes_alignment svd ref tgt asc arefl).transform i.castSucc 3 =
        spec_translation svd ref tgt asc arefl i) ∧
    (procrustes_alignment svd ref tgt asc arefl).transform 3 = ![0, 0, 0, 1] := by
  rw [align_eval svd ref tgt asc arefl hsh hN hd hdeg]
  exact ⟨rfl, rfl, fun i j => buildTransform_ul _ _ _ i j,
    fun i => buildTransform_tr _ _ _ i, buildTransform_bot _ _ _⟩

/-- Witness for C1 at the spec's own concrete triangle. -/
theorem alignment_transform_follows_spec_witness :
    (procrustes_alignment idSvd A0 A0 true false).success = true ∧
    (procrustes_alignment idSvd A0 A0 true false).scale = spec_scale A0 A0 true :=
  ⟨(alignment_transform_follows_spec idSvd A0 A0 true false rfl (by norm_num [A0]) rfl
      (fun _ => frobNorm_centered_A0_gt)).1,
   (alignment_transform_follows_spec idSvd A0 A0 true false rfl (by norm_num [A0]) rfl
      (fun _ => frobNorm_centered_A0_gt)).2.1⟩

/-- C3 (amended): `procrustes_alignment` fails exactly on a shape mismatch,
fewer than three points, non-3-D points, or—when scaling is allowed—a
centered-target Frobenius norm of at most 1e-10; the boundary value 1e-10
itself fails, because the source proceeds only on a strictly greater norm. -/
theorem alignment_failure_iff (svd : Mat3 → Mat3 × Mat3) (ref tgt : PtSet)
    (asc arefl : Bool) :
    (procrustes_alignment svd ref tgt asc arefl).success = false ↔
      (shape ref ≠ shape tgt ∨ ref.length < 3 ∨ (shape ref).2 ≠ 3 ∨
        (asc = true ∧ frobNorm (centered tgt) ≤ 1e-10)) := by
  rw [procrustes_alignment]
  by_cases h1 : shape ref ≠ shape tgt
  · rw [if_pos h1]
    simp [h1]
  rw [if_neg h1]
  by_cases h2 : ref.length < 3
  · rw [if_pos h2]
    simp [h2]
  rw [if_neg h2]
  by_cases h3 : (shape ref).2 ≠ 3
  · rw [if_pos h3]
    simp [h3]
  rw [if_neg h3]
  cases asc with
  | false =>
    rw [if_neg (by simp)]
    simp [alignRest_success, h1, h2, h3]
  | true =>
    rw [if_pos rfl]
    by_cases h5 : Real.sqrt (frobSq (centered tgt)) > 1e-10
    · rw [if_pos h5]
      simp [alignRest_success, h1, h2, h3, frobNorm, not_le.mpr h5]
    · rw [if_neg h5]
      simp [h1, h2, h3, frobNorm, not_lt.mp h5]

/-- C3 counterexample: at a centered-target norm of exactly 1e-10 the
source fails although no failure condition named by the claim holds. -/
theorem alignment_boundary_norm_cex :
    (procrustes_alignment idSvd R40 B0 true false).success = false ∧
    shape R40 = shape B0 ∧ ¬ R40.length < 3 ∧ (shape R40).2 = 3 ∧
    ¬ frobNorm (centered B0) < 1e-10 :=
  ⟨align_B0_fails, rfl, by norm_num [R40], rfl,
    by rw [frobNorm_centered_B0]; exact lt_irrefl _⟩

/-- C8 (amended): every failure is an explicit result value; a failed
pairwise alignment is paired with the identity transform and scale 1.0,
while a failed GPA run returns the empty aligned list and empty mean shape
rather than any per-set identity default. -/
theorem failure_defaults :
    (∀ (svd : Mat3 → Mat3 × Mat3) (ref tgt : PtSet) (asc arefl : Bool),
      (procrustes_alignment svd ref tgt asc arefl).success = false →
        (procrustes_alignment svd ref tgt asc arefl).transform = 1 ∧
        (procrustes_alignment svd ref tgt asc arefl).scale = 1) ∧
    (∀ (svd : Mat3 → Mat3 × Mat3) (sets : List PtSet) (it : ℤ) (tol : ℝ)
      (asc : Bool),
      (procrustes_superimposition svd sets it tol asc).success = false →
        (procrustes_superimposition svd sets it tol asc).aligned = [] ∧
        (procrustes_superimposition svd sets it tol asc).mean_shape = []) := by
  constructor
  · intro svd ref tgt asc arefl h
    rw [procrustes_alignment] at h ⊢
    by_cases h1 : shape ref ≠ shape tgt
    · rw [if_pos h1]
      exact ⟨rfl, rfl⟩
    rw [if_neg h1] at h ⊢
    by_cases h2 : ref.length < 3
    · rw [if_pos h2]
      exact ⟨rfl, rfl⟩
    rw [if_neg h2] at h ⊢
    by_cases h3 : (shape ref).2 ≠ 3
    · rw [if_pos h3]
      exact ⟨rfl, rfl⟩
    rw [if_neg h3] at h ⊢
    cases asc with
    | false =>
      rw [if_neg (by simp)] at h
      simp [alignRest_success] at h
    | true =>
      rw [if_pos rfl] at h ⊢
      by_cases h5 : Real.sqrt (frobSq (centered tgt)) > 1e-10
      · rw [if_pos h5] at h
        simp [alignRest_success] at h
      · rw [if_neg h5]
        exact ⟨rfl, rfl⟩
  · intro svd sets it tol asc h
    rw [procrustes_superimposition] at h ⊢
    by_cases h1 : sets.length < 2
    · rw [if_pos h1]
      exact ⟨rfl, rfl⟩
    rw [if_neg h1] at h ⊢
    by_cases h2 : ¬ (∀ pts ∈ sets, shape pts = shape sets.headI)
    · rw [if_pos h2]
      exact ⟨rfl, rfl⟩
    · rw [if_neg h2] at h
      simp at h

/-- C8 counterexample: a failed GPA run (two sets of mismatched shapes)
returns an empty aligned list: there is no per-input-set safe default a
caller could apply. -/
theorem gpa_failure_empty_cex :
    (procrustes_superimposition idSvd [A0, A2] 10 1e-6 true).success = false ∧
    (procrustes_superimposition idSvd [A0, A2] 10 1e-6 true).aligned = [] ∧
    (procrustes_superimposition idSvd [A0, A2] 10 1e-6 true).aligned.length ≠
      ([A0, A2] : List PtSet).length := by
  have hshape : ¬ (∀ pts ∈ ([A0, A2] : List PtSet),
      shape pts = shape ([A0, A2] : List PtSet).headI) := by
    intro hall
    have h := hall A2 (by simp)
    simp [shape, A0, A2] at h
  rw [procrustes_superimposition, if_neg (by norm_num), if_pos hshape]
  exact ⟨rfl, rfl, by simp⟩

/-- C10: with a non-positive iteration cap, GPA performs no iteration and
no convergence check, yet still succeeds, returning the input sets
unchanged and their elementwise average as the mean shape. -/
theorem gpa_nonpos_iterations (svd : Mat3 → Mat3 × Mat3) (sets : List PtSet)
    (it : ℤ) (tol : ℝ) (asc : Bool)
    (h2 : 2 ≤ sets.length)
    (hsh : ∀ pts ∈ sets, shape pts = shape sets.headI)
    (hit : it ≤ 0) :
    procrustes_superimposition svd sets it tol asc = ⟨true, sets, meanSet sets⟩ := by
  rw [procrustes_superimposition, if_neg (by omega), if_neg (by simpa using hsh)]
  rw [Int.toNat_of_nonpos hit]
  rfl

/-- Witness for C10 with a negative iteration cap. -/
theorem gpa_nonpos_iterations_witness :
    procrustes_superimposition idSvd [A0, A0] (-3) 1e-6 true =
      ⟨true, [A0, A0], meanSet [A0, A0]⟩ :=
  gpa_nonpos_iterations idSvd [A0, A0] (-3) 1e-6 true (by norm_num) (by simp)
    (by norm_num)

lemma getD_mem {α : Type} (l : List α) (p : ℕ) (d : α) (hp : p < l.length) :
    l.getD p d ∈ l := by
  induction l generalizing p with
  | nil => simp at hp
  | cons a l ih =>
    cases p with
    | zero => simp
    | succ p =>
      simp only [List.length_cons, Nat.succ_lt_succ_iff] at hp
      simpa using Or.inr (ih p hp)

lemma A0_rows : ∀ r ∈ A0, r.length = 3 := by
  intro r hr
  simp only [A0, List.mem_cons, List.not_mem_nil, or_false] at hr
  rcases hr with h | h | h <;> subst h <;> rfl

lemma spec_scale_A0 : spec_scale A0 A0 true = 1 := by
  rw [spec_scale, if_pos rfl, frobNorm, frobSq_centered_A0, div_self sqrt43_ne]

/-- C2 (amended): on every valid input on which `procrustes_alignment`
succeeds with reflections disallowed, orthogonal SVD factors and a nonzero
returned scale (the centered reference is not fully degenerate), the
rotation part of the returned transform — the linear block divided by the
returned scale — has determinant exactly +1, including when the
uncorrected `V·Uᵗ` has negative determinant. -/
theorem rotation_block_det_one (svd : Mat3 → Mat3 × Mat3) (ref tgt : PtSet)
    (asc : Bool)
    (hsh : shape ref = shape tgt) (hN : 3 ≤ ref.length) (hd : (shape ref).2 = 3)
    (hdeg : asc = true → 1e-10 < frobNorm (centered tgt))
    (hU : (svd (spec_H ref tgt asc)).1.transpose * (svd (spec_H ref tgt asc)).1 = 1)
    (hVt : (svd (spec_H ref tgt asc)).2.transpose * (svd (spec_H ref tgt asc)).2 = 1)
    (hs : spec_scale ref tgt asc ≠ 0) :
    (((procrustes_alignment svd ref tgt asc false).scale)⁻¹ •
      linearBlock ((procrustes_alignment svd ref tgt asc false).transform)).det = 1 := by
  rw [align_eval svd ref tgt asc false hsh hN hd hdeg]
  show ((spec_scale ref tgt asc)⁻¹ •
    linearBlock (buildTransform (spec_R svd ref tgt asc false)
      (spec_scale ref tgt asc) (spec_translation svd ref tgt asc false))).det = 1
  rw [linearBlock_buildTransform, smul_smul, inv_mul_cancel₀ hs, one_smul]
  exact spec_R_det_one svd ref tgt asc hU hVt

/-- Witness for C2 at the concrete triangle, where the returned scale is 1. -/
theorem rotation_block_det_one_witness :
    (((procrustes_alignment idSvd A0 A0 true false).scale)⁻¹ •
      linearBlock ((procrustes_alignment idSvd A0 A0 true false).transform)).det = 1 :=
  rotation_block_det_one idSvd A0 A0 true rfl (by norm_num [A0]) rfl
    (fun _ => frobNorm_centered_A0_gt) (by simp [idSvd]) (by simp [idSvd])
    (by rw [spec_scale_A0]; norm_num)

/-- C2 counterexample: with a fully degenerate reference (zero spread) and
scaling allowed, the call succeeds with scale 0, the linear block is the
zero matrix, and the "linear block divided by the returned scale" has
determinant 0, not +1. -/
theorem rotation_block_det_scale_zero_cex :
    (procrustes_alignment idSvd Z0 A0 true false).success = true ∧
    (((procrustes_alignment idSvd Z0 A0 true false).scale)⁻¹ •
      linearBlock ((procrustes_alignment idSvd Z0 A0 true false).transform)).det ≠ 1 := by
  rw [align_Z0]
  refine ⟨rfl, ?_⟩
  show (((0 : ℝ))⁻¹ • linearBlock (buildTransform 1 0 0)).det ≠ 1
  rw [linearBlock_buildTransform, smul_smul, inv_zero, zero_mul, zero_smul]
  rw [Matrix.det_zero (by infer_instance)]
  norm_num

/-- C4 (amended): for a reference with at least three 3-D points and
non-degenerate spread, aligning it to `target = k·(reference − centroid) +
centroid` (k > 0, spread above the degeneracy threshold) succeeds and
recovers scale exactly `1/k` — the ratio of centered-reference to
centered-target Frobenius norms — so its relative error from `1/k` (not
from `k`) is 0 < 1e-6. -/
theorem scale_recovery_inverse (svd : Mat3 → Mat3 × Mat3) (ref : PtSet)
    (k : ℝ) (arefl : Bool)
    (hrect : ∀ r ∈ ref, r.length = 3) (hN : 3 ≤ ref.length) (hk : 0 < k)
    (hspread : 1e-10 < k * frobNorm (centered ref)) :
    (procrustes_alignment svd ref (scaledAbout k ref) true arefl).success = true ∧
    (procrustes_alignment svd ref (scaledAbout k ref) true arefl).scale = k⁻¹ ∧
    |(procrustes_alignment svd ref (scaledAbout k ref) true arefl).scale - k⁻¹| / k⁻¹
      < 1e-6 := by
  obtain ⟨hsucc, hscale⟩ := scale_recovery_core svd ref k arefl hrect hN hk hspread
  refine ⟨hsucc, hscale, ?_⟩
  rw [hscale, sub_self, abs_zero, zero_div]
  norm_num

/-- Witness for C4 at the concrete triangle with k = 2: the recovered scale
is exactly 1/2. -/
theorem scale_recovery_inverse_witness :
    (procrustes_alignment idSvd A0 (scaledAbout 2 A0) true false).scale = (2 : ℝ)⁻¹ :=
  (scale_recovery_inverse idSvd A0 2 false A0_rows (by norm_num [A0]) (by norm_num)
    (by have h1 := frobNorm_centered_A0_gt; nlinarith [h1])).2.1

/-- C4 counterexample: at k = 2 the recovered scale is 1/2, whose relative
error from k = 2 is 3/4, far above 1e-6 — the claim's `scale ≈ k` fails. -/
theorem scale_recovery_claims_k_cex :
    ¬ (|(procrustes_alignment idSvd A0 (scaledAbout 2 A0) true false).scale - 2| / 2
        < 1e-6) := by
  have h := (scale_recovery_core idSvd A0 2 false A0_rows (by norm_num [A0])
    (by norm_num) (by have h1 := frobNorm_centered_A0_gt; nlinarith [h1])).2
  rw [h]
  rw [show |(2 : ℝ)⁻¹ - 2| = 3 / 2 by
    rw [abs_of_nonpos (by norm_num)]
    norm_num]
  norm_num

/-- C5 (amended): a valid GPA call returns exactly the triple of success
flag, aligned sets and mean shape of the run; the run's iteration count
(`gpaIterationsUsed` — what the spec calls iterations_used, the convergence
iteration or the exhausted cap) is computed along the way but is not a
component of the returned value. -/
theorem gpa_result_is_triple (svd : Mat3 → Mat3 × Mat3) (sets : List PtSet)
    (it : ℤ) (tol : ℝ) (asc : Bool)
    (h2 : 2 ≤ sets.length)
    (hsh : ∀ pts ∈ sets, shape pts = shape sets.headI) :
    procrustes_superimposition svd sets it tol asc =
      ⟨true, (gpaLoopCount svd asc tol sets it.toNat 0 sets (meanSet sets)).1,
        (gpaLoopCount svd asc tol sets it.toNat 0 sets (meanSet sets)).2.1⟩ := by
  rw [procrustes_superimposition, if_neg (by omega), if_neg (by simpa using hsh)]
  show (⟨true, (gpaLoop svd asc tol sets it.toNat sets (meanSet sets)).1,
    (gpaLoop svd asc tol sets it.toNat sets (meanSet sets)).2⟩ : GPAResult) = _
  rw [← gpaLoopCount_agrees svd asc tol sets it.toNat 0 sets (meanSet sets)]

/-- Witness for C5's amended statement at a converging two-set run. -/
theorem gpa_result_is_triple_witness :
    procrustes_superimposition idSvd [A0, A0] 5 1e-6 true =
      ⟨true, (gpaLoopCount idSvd true 1e-6 [A0, A0] ((5 : ℤ)).toNat 0 [A0, A0]
        (meanSet [A0, A0])).1,
        (gpaLoopCount idSvd true 1e-6 [A0, A0] ((5 : ℤ)).toNat 0 [A0, A0]
          (meanSet [A0, A0])).2.1⟩ :=
  gpa_result_is_triple idSvd [A0, A0] 5 1e-6 true (by norm_num) (by simp)

/-- C5 counterexample: no function of the returned GPAResult can be the
number of iterations performed — two valid runs (caps 5 and 0) return the
same result while performing 1 and 0 iterations respectively, so the
result does not include iterations_used. -/
theorem gpa_iterations_not_in_result_cex :
    ¬ ∃ f : GPAResult → ℤ,
      ∀ (svd : Mat3 → Mat3 × Mat3) (sets : List PtSet) (it : ℤ) (tol : ℝ)
        (asc : Bool),
        2 ≤ sets.length → (∀ pts ∈ sets, shape pts = shape sets.headI) →
        f (procrustes_superimposition svd sets it tol asc) =
          (gpaIterationsUsed svd sets it tol asc : ℤ) := by
  rintro ⟨f, hf⟩
  have h5 := hf idSvd [A0, A0] 5 1e-6 true (by norm_num) (by simp)
  have h0 := hf idSvd [A0, A0] 0 1e-6 true (by norm_num) (by simp)
  rw [gpa_A0_five, iters_A0_five] at h5
  rw [gpa_A0_zero, iters_A0_zero] at h0
  rw [h5] at h0
  norm_num at h0

/-- C7: one GPA iteration updates each aligned set from the ORIGINAL input
set — aligned to the current mean with reflections disallowed — leaving it
unchanged when that pairwise call fails; the new mean is the elementwise
average of the updated aligned sets, and the loop stops as converged
exactly when the maximum absolute elementwise difference between the new
mean and the previous mean is below the tolerance. -/
theorem gpa_iteration_step (svd : Mat3 → Mat3 × Mat3) (asc : Bool) (tol : ℝ)
    (point_sets aligned : List PtSet) (mean : PtSet) (fuel : ℕ)
    (hlen : aligned.length = point_sets.length) :
    ((gpaPass svd asc point_sets aligned mean).length = point_sets.length) ∧
    (∀ p, p < point_sets.length →
      (gpaPass svd asc point_sets aligned mean).getD p [] =
        (if (procrustes_alignment svd mean (point_sets.getD p []) asc false).success
        then (point_sets.getD p []).map
          (applyTransform
            (procrustes_alignment svd mean (point_sets.getD p []) asc false).transform)
        else aligned.getD p [])) ∧
    (maxAbsDiff (meanSet (gpaPass svd asc point_sets aligned mean)) mean < tol →
      gpaLoop svd asc tol point_sets (fuel + 1) aligned mean =
        (gpaPass svd asc point_sets aligned mean,
         meanSet (gpaPass svd asc point_sets aligned mean))) ∧
    (¬ maxAbsDiff (meanSet (gpaPass svd asc point_sets aligned mean)) mean < tol →
      gpaLoop svd asc tol point_sets (fuel + 1) aligned mean =
        gpaLoop svd asc tol point_sets fuel
          (gpaPass svd asc point_sets aligned mean)
          (meanSet (gpaPass svd asc point_sets aligned mean))) := by
  refine ⟨by simp [gpaPass, hlen], ?_, ?_, ?_⟩
  · intro p hp
    rw [gpaPass, zipWith_getD _ point_sets aligned p hp (by omega) [] [] []]
  · intro hc
    rw [gpaLoop, if_pos hc]
  · intro hc
    rw [gpaLoop, if_neg hc]

/-- Witness for C7 at a one-pass converging configuration. -/
theorem gpa_iteration_step_witness :
    (gpaPass idSvd true [A0, A0] [A0, A0] A0).length =
      ([A0, A0] : List PtSet).length :=
  (gpa_iteration_step idSvd true 1e-6 [A0, A0] [A0, A0] A0 0 rfl).1

/-- C9: `compute_alignment_error` returns exactly the root-mean-square
Euclidean distance between the reference rows and the target rows mapped
through the transform in homogeneous coordinates; it is a total function
with no failure modes of its own. -/
theorem alignment_error_is_rmse (ref tgt : PtSet) (M : Mat4)
    (hlen : tgt.length = ref.length) (hrect : ∀ r ∈ ref, r.length = 3) :
    compute_alignment_error ref tgt M = spec_rmse ref tgt M := by
  rw [compute_alignment_error, spec_rmse]
  have hmlen : (tgt.map (applyTransform M)).length = ref.length := by
    rw [List.length_map, hlen]
  have hdlen : (List.zipWith vsub ref (tgt.map (applyTransform M))).length
      = ref.length := by
    rw [List.length_zipWith, hmlen, min_self]
  rw [hdlen]
  congr 1
  congr 1
  rw [zipWith_map_sum vsumsq vsub ref (tgt.map (applyTransform M)) [] []
    (by rw [hmlen])]
  apply Finset.sum_congr rfl
  intro p hp
  have hp2 : p < ref.length := Finset.mem_range.mp hp
  have hr3 : (ref.getD p []).length = 3 := hrect _ (getD_mem ref p [] hp2)
  rw [getD_map_of_lt (applyTransform M) tgt p (by omega) [] []]
  rw [applyTransform_eq_ofFn, vsumsq_vsub_ofFn _ hr3, euclDist_sq]

/-- Witness for C9 with the identity transform on the concrete triangle. -/
theorem alignment_error_is_rmse_witness :
    compute_alignment_error A0 A0 1 = spec_rmse A0 A0 1 :=
  alignment_error_is_rmse A0 A0 1 rfl A0_rows

/-! The zero-size edge of the GPA convergence check. -/

lemma meanSet_E0 : meanSet [E0, E0] = E0 := by
  norm_num [meanSet, setSum, smulSet, vadd, vsmul, shape, E0, List.replicate]

lemma align_E0_fails :
    (procrustes_alignment idSvd E0 E0 true false).success = false := by
  rw [procrustes_alignment]
  rw [if_neg (by norm_num [shape, E0])]
  rw [if_neg (by norm_num [E0])]
  rw [if_pos (by norm_num [shape, E0])]

lemma gpaPass_E0 : gpaPass idSvd true [E0, E0] [E0, E0] (meanSet [E0, E0]) = [E0, E0] := by
  rw [meanSet_E0]
  simp [gpaPass, align_E0_fails]

/-- C6: the program, not the model, decides this claim — and it raises.
Two equal-shape zero-size sets (numpy shape (3, 0)) pass both GPA
validation checks; inside the first pass every pairwise alignment fails
(shape gate: the points are 0-dimensional) and is recovered locally; the
first convergence check then hands `np.max` a zero-size array, where
`np.max` raises ValueError — so the call raises instead of returning
`success = true` as the claim and the spec's never-throws error design
require. -/
theorem gpa_zero_size_raises :
    2 ≤ ([E0, E0] : List PtSet).length ∧
    (∀ pts ∈ ([E0, E0] : List PtSet), shape pts = shape ([E0, E0] : List PtSet).headI) ∧
    (procrustes_alignment idSvd (meanSet [E0, E0]) E0 true false).success = false ∧
    gpaPass idSvd true [E0, E0] [E0, E0] (meanSet [E0, E0]) = [E0, E0] ∧
    npMax (absDiffEntries
      (meanSet (gpaPass idSvd true [E0, E0] [E0, E0] (meanSet [E0, E0])))
      (meanSet [E0, E0])) = none := by
  refine ⟨by norm_num, by simp, ?_, gpaPass_E0, ?_⟩
  · rw [meanSet_E0]
    exact align_E0_fails
  · rw [gpaPass_E0, meanSet_E0]
    rfl

end Procrustes
